import Mathlib

/-!
Shallow embedding of the `actor-es` event-sourcing core (Valiuapp/actor-es).

Source of truth: `src/store.rs` (Commit, CommitStore, TimeTraveler, Store
dispatcher), `src/entity.rs` (Model trait, Entity dispatcher command path).
The crate root (defining `EntityId` and `Event`) and the in-memory backend
(`store/in_memory.rs`) are not part of the provided sources; those data
definitions are modelled from the spec where noted.

Conventions of the embedding:
* Rust `DateTime<Utc>` timestamps become `Int`; `Utc::now()` is an effect, so
  every construction site that calls it takes the current time as an explicit
  argument.
* A `BoxStream<CommitResult<T>>` becomes `List (Except CommitError T)`.
* A Rust panic (`unwrap` / `expect` on a failure, which kills the spawned
  task so that no reply is ever produced) is modelled by an outer `Option`:
  `none` means the computation panicked.
* In-place mutation `m.apply_change(&c)` becomes a pure step function
  `applyChange : M → C → M`.
-/

namespace ActorES

/-- Modelled from the spec: `EntityId` is an opaque unique identifier of one
aggregate instance (crate root is not in the provided sources). -/
abbrev EntityId := Nat

/-- Embedding of `chrono::DateTime<Utc>` as an integer timestamp. -/
abbrev UtcTime := Int

/-- Modelled from the spec: `Event` is a tagged union over two variants,
`Create(Model)` carrying the full initial model and `Change(EntityId, Change)`
carrying an incremental delta (crate root is not in the provided sources). -/
inductive Event (M C : Type) where
  | Create (m : M)
  | Change (id : EntityId) (c : C)
deriving DecidableEq, Repr

/-- Modelled from the spec: `Event::entity()` extracts the initial model of a
`Create` variant (used by `CommitStore::get`, src/store.rs line 33). -/
def Event.entity {M C : Type} : Event M C → Option M
  | .Create m => some m
  | .Change _ _ => none

/-- Modelled from the spec: `Event::change()` extracts the delta of a `Change`
variant (used by `TimeTraveler::travel_to`, src/store.rs line 69). -/
def Event.change {M C : Type} : Event M C → Option C
  | .Create _ => none
  | .Change _ c => some c

/-- Modelled from the spec: `Event::entity_id()` returns the id the event is
about, via `Model::id` for a `Create` (used through `Commit`'s `Deref`,
src/store.rs line 143 and src/entity.rs line 98). `modelId` embeds the
aggregate's `Model::id` method. -/
def Event.entityId {M C : Type} (modelId : M → EntityId) : Event M C → EntityId
  | .Create m => modelId m
  | .Change id _ => id

/-- `CommitError` from src/store.rs lines 46-52. -/
inductive CommitError where
  | CantChange
  | NotFound
deriving DecidableEq, Repr

/-- `CommitResult<T>` from src/store.rs line 44. -/
abbrev CommitResult (T : Type) := Except CommitError T

/-- `Commit` from src/store.rs lines 268-274: an immutable wrapper around one
`Event` plus metadata (timestamp, optional author, optional reason). -/
structure Commit (M C : Type) where
  event : Event M C
  when : UtcTime
  who : Option String
  why : Option String
deriving DecidableEq, Repr

/-- `Commit::new` from src/store.rs lines 276-283. The `now` argument embeds
the `Utc::now()` call made at construction time. -/
def Commit.new {M C : Type} (event : Event M C) (who why : Option String)
    (now : UtcTime) : Commit M C :=
  { event := event, when := now, who := who, why := why }

/-- `impl From<Event<T>> for Commit<T>` from src/store.rs lines 294-298:
`Commit::new(e, None, None)`. -/
def commitFromEvent {M C : Type} (e : Event M C) (now : UtcTime) : Commit M C :=
  Commit.new e none none now

/-- `Commit` derefs to its event (src/store.rs lines 286-292), so
`c.entity_id()` resolves to the event's. -/
def Commit.entityId {M C : Type} (modelId : M → EntityId) (c : Commit M C) :
    EntityId :=
  c.event.entityId modelId

/-- `Commit::change()` through `Deref` to the event. -/
def Commit.change {M C : Type} (c : Commit M C) : Option C :=
  c.event.change

/-- `Commit::entity()` through `Deref` to the event. -/
def Commit.entity {M C : Type} (c : Commit M C) : Option M :=
  c.event.entity

instance {ε α : Type} [DecidableEq ε] [DecidableEq α] :
    DecidableEq (Except ε α) := fun x y =>
  match x, y with
  | .ok a, .ok b => decidable_of_iff (a = b) (by simp)
  | .ok _, .error _ => .isFalse fun h => Except.noConfusion h
  | .error _, .ok _ => .isFalse fun h => Except.noConfusion h
  | .error e, .error f => decidable_of_iff (e = f) (by simp)

/-- `TimeTraveler` from src/store.rs lines 55-58: a seed model plus the
remaining commit stream. -/
structure TimeTraveler (M C : Type) where
  model : M
  changes : List (CommitResult (Commit M C))
deriving DecidableEq, Repr

section Replay

variable {M C : Type} (applyChange : M → C → M)

/-- The `try_fold` inside `TimeTraveler::travel_to` (src/store.rs lines
66-73): for each stream element, an `Err` aborts the fold with that error;
an `Ok` commit has its change extracted with `c.change().unwrap()` — a panic
(`none`) when the commit is not a `Change` — and applied with
`apply_change`. -/
def foldChanges : M → List (CommitResult (Commit M C)) → Option (CommitResult M)
  | m, [] => some (.ok m)
  | _, .error e :: _ => some (.error e)
  | m, .ok c :: rest =>
    match c.event.change with
    | none => none
    | some ch => foldChanges (applyChange m ch) rest

/-- `TimeTraveler::travel_to` from src/store.rs lines 65-75. The `_until`
bound is accepted but never used by the source. -/
def TimeTraveler.travelTo (tt : TimeTraveler M C) (_until : UtcTime) :
    Option (CommitResult M) :=
  foldChanges applyChange tt.model tt.changes

/-- `CommitStore::get` from src/store.rs lines 27-37, applied to the stream
produced by `change_list(id)`: `try_next` reads the first element (an `Err`
element propagates via `?`; an empty stream becomes `Err(NotFound)` via
`ok_or`), then `.entity().unwrap()` panics (`none`) unless that first commit
is a `Create`; otherwise the traveler is seeded with the extracted model and
the rest of the stream. -/
def get : List (CommitResult (Commit M C)) →
    Option (CommitResult (TimeTraveler M C))
  | [] => some (.error .NotFound)
  | .error e :: _ => some (.error e)
  | .ok c :: rest =>
    match c.event.entity with
    | none => none
    | some m => some (.ok { model := m, changes := rest })

/-- `CommitStore::snapshot` from src/store.rs lines 39-41: `get` then
`travel_to`. -/
def snapshot (changes : List (CommitResult (Commit M C))) (time : UtcTime) :
    Option (CommitResult M) :=
  match get changes with
  | none => none
  | some (.error e) => some (.error e)
  | some (.ok tt) => tt.travelTo applyChange time

end Replay

/-- Extraction of the `Change` payloads of a commit list: `none` as soon as
one commit is not a `Change` variant. Reference function used to state the
replay claims. -/
def extractChanges {M C : Type} : List (Commit M C) → Option (List C)
  | [] => some []
  | c :: rest =>
    match c.event.change with
    | none => none
    | some ch => (extractChanges rest).map (ch :: ·)

section StoreDispatcher

variable {M C : Type} (applyChange : M → C → M)

/-- The reply produced by the `Snapshot(id, time)` handler
(src/store.rs lines 163-190): the spawned task resolves
`backend.snapshot(id, until)` and tells `snapshot.ok()` back to the sender —
`some m` on success, `none` on any `CommitError`. When the snapshot
computation itself panics the task dies and no reply is ever sent (outer
`none`). -/
def storeSnapshotReceive (changes : List (CommitResult (Commit M C)))
    (time : UtcTime) : Option (Option M) :=
  match snapshot applyChange changes time with
  | none => none
  | some (.ok m) => some (some m)
  | some (.error _) => some none

/-- Observable actions of the spawned task handling a `Commit` message
(src/store.rs lines 140-159). -/
inductive StoreAction (M C : Type) where
  | persisted (c : Commit M C)
  | published (topic : String) (e : Event M C)
deriving DecidableEq, Repr

/-- The topic the `Commit` handler publishes on: `format!("{}-events", name)`
where `name` is the dispatcher's own actor name (src/store.rs line 145). -/
def eventTopic (name : String) : String :=
  name ++ "-events"

/-- Trace of the spawned task handling a `Commit` message (src/store.rs lines
147-159), as the sequence of its observable actions: it first awaits
`store.commit(c)` — `.expect` panics the task on failure, so nothing further
happens — and only then, when a bus is configured, publishes the committed
event on `eventTopic name`. `res` is the backend's commit result. -/
def commitReceiveTrace (name : String) (c : Commit M C) (bus : Bool)
    (res : CommitResult Unit) : List (StoreAction M C) :=
  match res with
  | .error _ => []
  | .ok _ =>
    .persisted c :: if bus then [.published (eventTopic name) c.event] else []

end StoreDispatcher

section Backend

variable {M C : Type} (applyChange : M → C → M) (modelId : M → EntityId)

/-- Modelled from the spec: the reference in-memory backend
(`store/in_memory.rs`, not in the provided sources) keeps, per id, an
insertion-ordered sequence of commits in a shared table. -/
structure MemStore (M C : Type) where
  table : List (EntityId × List (Commit M C))
deriving DecidableEq, Repr

/-- Modelled from the spec: `keys()` enumerates all known `EntityId`s of the
backend table. -/
def MemStore.keys (s : MemStore M C) : List EntityId :=
  s.table.map (·.1)

/-- Modelled from the spec: `change_list(id)` streams the commits stored for
exactly `id`, in causal append order; empty if `id` is unknown. The
in-memory backend never emits stream errors. -/
def MemStore.changeList (s : MemStore M C) (id : EntityId) :
    List (Commit M C) :=
  match s.table.find? (fun e => e.1 = id) with
  | none => []
  | some e => e.2

/-- Modelled from the spec: `commit(c)` durably appends `c` to its id's
sequence, creating the sequence if the id is new; it never rewrites or
reorders prior commits. -/
def MemStore.commit (s : MemStore M C) (c : Commit M C) : MemStore M C :=
  let id := c.entityId modelId
  if s.table.any (fun e => e.1 = id) then
    ⟨s.table.map fun e => if e.1 = id then (e.1, e.2 ++ [c]) else e⟩
  else
    ⟨s.table ++ [(id, [c])]⟩

/-- The body of `CommitStore::entities` (src/store.rs lines 23-25) composed
with the `SnapshotList` handler's pipeline (src/store.rs lines 203-209): for
each backend key, `get` then `travel_to`, collected with `try_collect`. A
stream error or a panic for any single id fails the whole collection. -/
def entitiesCollect (s : MemStore M C) (time : UtcTime) :
    List EntityId → Option (List M)
  | [] => some []
  | id :: rest =>
    match snapshot applyChange ((s.changeList id).map .ok) time,
        entitiesCollect s time rest with
    | some (.ok m), some ms => some (m :: ms)
    | _, _ => none

/-- The spawned task handling a `SnapshotList(time)` message (src/store.rs
lines 193-217): collect the replay of every backend key, then reply with the
list; `.expect("list entities")` kills the task on any error or panic, so no
reply is sent (outer `none`). -/
def snapshotList (s : MemStore M C) (time : UtcTime) : Option (List M) :=
  entitiesCollect applyChange s time s.keys

/-- Reference replay of one stored commit log, used to state list queries:
the seed model extracted from a leading `Create`, then the `Change` payloads
of the remaining commits folded left-to-right with `apply_change`; `none`
when the log is empty, does not start with a `Create`, or has a `Create`
after the first position. -/
def replayLog (l : List (Commit M C)) : Option M :=
  match l with
  | [] => none
  | c :: rest =>
    match c.event.entity with
    | none => none
    | some m => (extractChanges rest).map fun chs => chs.foldl applyChange m

/-- Reference replay of a whole backend table, one model per entry, each
replayed only from its own commit log; `none` when any entry fails to
replay. -/
def replayAll : List (EntityId × List (Commit M C)) → Option (List M)
  | [] => some []
  | e :: rest =>
    match replayLog applyChange e.2, replayAll rest with
    | some m, some ms => some (m :: ms)
    | _, _ => none

end Backend

section EntityDispatcher

variable {M C ε : Type} (modelId : M → EntityId)

/-- Observable actions of the spawned task handling a `CQRS::Cmd` message
(src/entity.rs lines 85-107). `awaitedPersistence` never occurs in that
task: persistence runs in the Store's own spawned task. -/
inductive EntityAction (M C : Type) where
  | forwardedToStore (c : Commit M C)
  | repliedId (id : EntityId)
  | awaitedPersistence
deriving DecidableEq, Repr

/-- Trace of the spawned task handling a `CQRS::Cmd` message (src/entity.rs
lines 88-106): the handler is awaited under the lock — `.expect` panics the
task on a handler error, so nothing further happens — then the resulting
commit is sent to the Store with the fire-and-forget `tell`, and, when a
reply address is present, the commit's entity id is told back to the sender.
The task never awaits the backend's persistence of the commit. -/
def cmdReceiveTrace (res : Except ε (Commit M C)) (hasSender : Bool) :
    List (EntityAction M C) :=
  match res with
  | .error _ => []
  | .ok c =>
    .forwardedToStore c ::
      if hasSender then [.repliedId (c.entityId modelId)] else []

end EntityDispatcher

/-! ### Concrete aggregate from the crate's own tests
(`TestCount` / `Op`, src/store.rs lines 306-335), used for witnesses and
counterexamples. The `i16` counter is embedded as an integer reduced to the
two's-complement range after each update. -/

/-- Two's-complement reduction of `i16` arithmetic. -/
def wrap16 (n : Int) : Int :=
  (n + 32768) % 65536 - 32768

/-- `TestCount` from src/store.rs lines 306-310. -/
structure TestCount where
  id : EntityId
  count : Int
deriving DecidableEq, Repr

/-- `Op` from src/store.rs lines 319-323. -/
inductive Op where
  | Add (n : Int)
  | Sub (n : Int)
deriving DecidableEq, Repr

/-- `Model::apply_change` for `TestCount` (src/store.rs lines 329-334). -/
def TestCount.applyChange (t : TestCount) (op : Op) : TestCount :=
  match op with
  | .Add n => { t with count := wrap16 (t.count + n) }
  | .Sub n => { t with count := wrap16 (t.count - n) }

/-- `Model::id` for `TestCount` (src/store.rs lines 326-328). -/
def TestCount.modelId (t : TestCount) : EntityId :=
  t.id

/-- A `TestCount` with id 7 and count 0, seed of the sample run below. -/
def sampleModel : TestCount :=
  ⟨7, 0⟩

/-- A commit for the sample aggregate with empty metadata, timestamped 0. -/
def mkTestCommit (e : Event TestCount Op) : Commit TestCount Op :=
  Commit.new e none none 0

/-- The change commits of the `load_snapshot` test run
(src/store.rs lines 346-350): Add 15, Add 5, Sub 9, Add 31. -/
def sampleChanges : List (Commit TestCount Op) :=
  [mkTestCommit (.Change 7 (.Add 15)), mkTestCommit (.Change 7 (.Add 5)),
   mkTestCommit (.Change 7 (.Sub 9)), mkTestCommit (.Change 7 (.Add 31))]

/-- The full sample commit log: one `Create` then the four changes. -/
def sampleLog : List (Commit TestCount Op) :=
  mkTestCommit (.Create sampleModel) :: sampleChanges

/-- A lone `Change` commit under id 1, an ill-formed head for a commit log. -/
def strayChange : Commit TestCount Op :=
  mkTestCommit (.Change 1 (.Add 1))

/-! ## Helper lemmas -/

/-- Characterization of the `travel_to` fold on an error-free stream: it
returns the left fold of the extracted change payloads, and panics exactly
when some commit has no `Change` payload. -/
theorem foldChanges_ok_map {M C : Type} (applyChange : M → C → M) :
    ∀ (l : List (Commit M C)) (m : M),
    foldChanges applyChange m (l.map .ok) =
      Option.map (fun chs => Except.ok (chs.foldl applyChange m))
        (extractChanges l)
  | [], m => by simp [foldChanges, extractChanges]
  | c :: rest, m => by
    simp only [List.map_cons, foldChanges, extractChanges]
    cases h : c.event.change with
    | none => simp [h]
    | some ch =>
      simp only [h, foldChanges_ok_map applyChange rest (applyChange m ch),
        Option.map_map]
      cases extractChanges rest <;> simp [Function.comp]

/-- The model (if any) carried by a snapshot outcome: `none` on a panic or a
`CommitError`. -/
def resultModel {M : Type} : Option (CommitResult M) → Option M
  | some (.ok m) => some m
  | some (.error _) => none
  | none => none

/-- A snapshot over an error-free stream yields a model exactly as
`replayLog` does. -/
theorem resultModel_snapshot {M C : Type} (applyChange : M → C → M)
    (l : List (Commit M C)) (t : UtcTime) :
    resultModel (snapshot applyChange (l.map .ok) t) =
      replayLog applyChange l := by
  cases l with
  | nil => rfl
  | cons c rest =>
    simp only [snapshot, get, List.map_cons, replayLog]
    cases h : c.event.entity with
    | none => simp [h, resultModel]
    | some m =>
      simp only [h, TimeTraveler.travelTo, foldChanges_ok_map]
      cases extractChanges rest <;> simp [resultModel]

/-- Collecting the per-key replays equals the reference table replay of the
corresponding (key, log) pairs. -/
theorem entitiesCollect_eq_replayAll {M C : Type} (applyChange : M → C → M)
    (s : MemStore M C) (t : UtcTime) :
    ∀ keys, entitiesCollect applyChange s t keys =
      replayAll applyChange (keys.map fun id => (id, s.changeList id))
  | [] => rfl
  | id :: rest => by
    have hr := resultModel_snapshot applyChange (s.changeList id) t
    simp only [entitiesCollect, List.map_cons, replayAll, ← hr,
      entitiesCollect_eq_replayAll applyChange s t rest]
    generalize replayAll applyChange
      (List.map (fun id => (id, s.changeList id)) rest) = X
    cases snapshot applyChange ((s.changeList id).map .ok) t with
    | none => cases X <;> simp [resultModel]
    | some r => cases r <;> cases X <;> simp [resultModel]

/-- Looking up the head entry's id returns the head entry's log. -/
theorem changeList_cons_self {M C : Type} (e : EntityId × List (Commit M C))
    (rest : List (EntityId × List (Commit M C))) :
    MemStore.changeList ⟨e :: rest⟩ e.1 = e.2 := by
  simp [MemStore.changeList, List.find?_cons_of_pos]

/-- Looking up a different id skips the head entry. -/
theorem changeList_cons_ne {M C : Type} (e : EntityId × List (Commit M C))
    (rest : List (EntityId × List (Commit M C))) (id : EntityId)
    (h : e.1 ≠ id) :
    MemStore.changeList ⟨e :: rest⟩ id = MemStore.changeList ⟨rest⟩ id := by
  simp [MemStore.changeList, List.find?_cons_of_neg, h]

/-- With pairwise-distinct ids, pairing each key with its own change list
recovers the table itself. -/
theorem keys_map_changeList {M C : Type} :
    ∀ (table : List (EntityId × List (Commit M C))),
    (table.map (·.1)).Nodup →
    (MemStore.keys ⟨table⟩).map
      (fun id => (id, MemStore.changeList ⟨table⟩ id)) = table
  | [], _ => rfl
  | e :: rest, h => by
    rw [List.map_cons] at h
    obtain ⟨hhead, htail⟩ := List.nodup_cons.mp h
    simp only [MemStore.keys, List.map_cons]
    refine congrArg₂ (· :: ·) ?_ ?_
    · simp [changeList_cons_self]
    · have hcongr : ∀ id ∈ rest.map (·.1),
          MemStore.changeList (⟨e :: rest⟩ : MemStore M C) id =
            MemStore.changeList ⟨rest⟩ id := by
        intro id hid
        exact changeList_cons_ne e rest id fun he => hhead (he ▸ hid)
      have := keys_map_changeList rest htail
      simp only [MemStore.keys] at this
      calc (rest.map (·.1)).map
            (fun id => (id, MemStore.changeList (⟨e :: rest⟩ : MemStore M C) id))
          = (rest.map (·.1)).map
            (fun id => (id, MemStore.changeList ⟨rest⟩ id)) := by
            exact List.map_congr_left fun id hid => by rw [hcongr id hid]
        _ = rest := this

/-- A mid-stream `Create` commit makes the `travel_to` fold panic, whatever
well-formed changes precede it. -/
theorem foldChanges_append_create {M C : Type} (applyChange : M → C → M)
    (c : Commit M C) (mC : M) (hc : c.event = .Create mC) :
    ∀ (pre : List (Commit M C)) (post : List (Commit M C)) (m0 : M),
    (∀ x ∈ pre, (x.event.change).isSome) →
    foldChanges applyChange m0 ((pre ++ c :: post).map .ok) = none
  | [], post, m0, _ => by
    simp [foldChanges, hc, Event.change]
  | x :: xs, post, m0, hpre => by
    obtain ⟨ch, hch⟩ := Option.isSome_iff_exists.mp (hpre x (by simp))
    simp only [List.cons_append, List.map_cons, foldChanges, hch]
    exact foldChanges_append_create applyChange c mC hc xs post
      (applyChange m0 ch) fun y hy => hpre y (by simp [hy])

/-- A successful `travel_to` fold certifies that every folded commit carried
a `Change` payload. -/
theorem foldChanges_ok_changes {M C : Type} (applyChange : M → C → M) :
    ∀ (l : List (Commit M C)) (m0 m' : M),
    foldChanges applyChange m0 (l.map .ok) = some (.ok m') →
    ∀ x ∈ l, (x.event.change).isSome
  | [], _, _, _, x, hx => absurd hx (List.not_mem_nil x)
  | c :: rest, m0, m', h, x, hx => by
    revert h
    simp only [List.map_cons, foldChanges]
    cases hch : c.event.change with
    | none => intro h; exact absurd h (by simp)
    | some ch =>
      intro h
      rcases List.mem_cons.mp hx with rfl | hmem
      · simp [hch]
      · exact foldChanges_ok_changes applyChange rest (applyChange m0 ch) m'
          h x hmem

/-! ## Claim theorems -/

/-- Claim C1: for a commit sequence of one `Create(m0)` followed by changes
`c1..cn` for the same entity, the snapshot operation (`get` followed by
`travel_to`) returns `apply_change` folded left-to-right over `m0` in commit
order. -/
theorem snapshot_replays_fold {M C : Type} (applyChange : M → C → M)
    (c0 : Commit M C) (m0 : M) (rest : List (Commit M C)) (chs : List C)
    (t : UtcTime) (h0 : c0.event = .Create m0)
    (hrest : extractChanges rest = some chs) :
    snapshot applyChange ((c0 :: rest).map .ok) t =
      some (.ok (chs.foldl applyChange m0)) := by
  simp [snapshot, get, h0, Event.entity, TimeTraveler.travelTo,
    foldChanges_ok_map, hrest]

/-- Witness for C1: the crate's own `load_snapshot` run — count 0, then
Add 15, Add 5, Sub 9, Add 31 — snapshots to count 42. -/
theorem snapshot_replays_fold_witness :
    snapshot TestCount.applyChange (sampleLog.map .ok) 0 =
      some (.ok (⟨7, 42⟩ : TestCount)) := by
  have h := snapshot_replays_fold TestCount.applyChange
    (mkTestCommit (.Create sampleModel)) sampleModel sampleChanges
    [Op.Add 15, Op.Add 5, Op.Sub 9, Op.Add 31] 0 rfl (by decide)
  exact h.trans (by decide)

/-- Claim C2: `travel_to` never consults its time bound, so for any traveler
state the result is the same for every pair of time arguments. -/
theorem travelTo_ignores_time {M C : Type} (applyChange : M → C → M)
    (tt : TimeTraveler M C) (t1 t2 : UtcTime) :
    tt.travelTo applyChange t1 = tt.travelTo applyChange t2 :=
  rfl

/-- Counterexample to C3 as stated: on a change list whose first element is
a `Change` commit (not a `Create`), `get` does not fail with
`CommitError::NotFound` — `.entity().unwrap()` panics instead, so `get`
produces no result at all. -/
theorem get_change_head_panics :
    get [Except.ok strayChange] = none ∧
    get [Except.ok strayChange] ≠ some (.error CommitError.NotFound) := by
  decide

/-- Claim C3 (amended): `get` fails with `NotFound` exactly when the change
list is empty; on a list whose first commit is a `Create` it returns a
traveler seeded with the extracted model and the remaining commits; on a
list whose first commit is a `Change` it panics instead of returning a
`CommitError`. -/
theorem get_characterization {M C : Type} (l : List (Commit M C)) :
    (get (l.map .ok) = some (.error CommitError.NotFound) ↔ l = []) ∧
    (∀ c rest m, l = c :: rest → c.event = .Create m →
      get (l.map .ok) = some (.ok ⟨m, rest.map .ok⟩)) ∧
    (∀ c rest id ch, l = c :: rest → c.event = .Change id ch →
      get (l.map .ok) = none) := by
  refine ⟨?_, ?_, ?_⟩
  · cases l with
    | nil => simp [get]
    | cons c rest =>
      simp only [List.map_cons, get]
      cases c.event.entity <;> simp
  · rintro c rest m rfl h
    simp [get, h, Event.entity]
  · rintro c rest id ch rfl h
    simp [get, h, Event.change, Event.entity]

/-- Witness for the amended C3 at the sample log: `get` seeds the traveler
with the created model and keeps the four change commits. -/
theorem get_characterization_witness :
    get (sampleLog.map .ok) =
      some (.ok ⟨sampleModel, sampleChanges.map .ok⟩) :=
  (get_characterization sampleLog).2.1 (mkTestCommit (.Create sampleModel))
    sampleChanges sampleModel rfl rfl

/-- Claim C10: converting a bare `Event` into a `Commit` (the path a `Store`
takes when told an `Event`) yields empty author and reason, the timestamp
supplied at construction time, and the event itself unchanged. -/
theorem commitFromEvent_defaults {M C : Type} (e : Event M C)
    (now : UtcTime) :
    (commitFromEvent e now).who = none ∧ (commitFromEvent e now).why = none ∧
    (commitFromEvent e now).when = now ∧ (commitFromEvent e now).event = e :=
  ⟨rfl, rfl, rfl, rfl⟩

/-- Claim C4: the `Snapshot(id, time)` handler replies `some model` when the
backend snapshot succeeds and a bare `none` on every `CommitError`, so the
caller cannot distinguish one error from another; an id with zero commits in
particular yields the absent reply, not a surfaced error. -/
theorem snapshotReceive_contract {M C : Type} (applyChange : M → C → M)
    (changes : List (CommitResult (Commit M C))) (t : UtcTime) :
    (∀ m, snapshot applyChange changes t = some (.ok m) →
      storeSnapshotReceive applyChange changes t = some (some m)) ∧
    (∀ e, snapshot applyChange changes t = some (.error e) →
      storeSnapshotReceive applyChange changes t = some none) ∧
    storeSnapshotReceive applyChange
      ([] : List (CommitResult (Commit M C))) t = some none := by
  refine ⟨?_, ?_, rfl⟩
  · intro m h
    simp [storeSnapshotReceive, h]
  · intro e h
    simp [storeSnapshotReceive, h]

/-- Witness for C4 at the sample log: the successful snapshot is wrapped in
`some`, and the empty log of an unknown id is answered with `none`. -/
theorem snapshotReceive_contract_witness :
    storeSnapshotReceive TestCount.applyChange (sampleLog.map .ok) 0 =
      some (some (⟨7, 42⟩ : TestCount)) :=
  (snapshotReceive_contract TestCount.applyChange (sampleLog.map .ok) 0).1
    ⟨7, 42⟩ (by decide)

/-- Claim C5: in the `Commit` handler's spawned task, a publication on the
`"<name>-events"` topic occurs only strictly after the backend commit has
completed successfully, and a failed commit publishes nothing. -/
theorem commit_publishes_after_persist {M C : Type} (name : String)
    (c : Commit M C) (res : CommitResult Unit) :
    (∀ topic e,
      StoreAction.published topic e ∈ commitReceiveTrace name c true res →
      res = .ok () ∧ topic = eventTopic name ∧ e = c.event ∧
      commitReceiveTrace name c true res =
        [.persisted c, .published (eventTopic name) c.event]) ∧
    (∀ err, res = .error err → commitReceiveTrace name c true res = []) := by
  constructor
  · intro topic e hmem
    cases res with
    | error err => simp [commitReceiveTrace] at hmem
    | ok u =>
      cases u
      simp only [commitReceiveTrace, List.mem_cons, List.mem_singleton,
        List.not_mem_nil, or_false] at hmem
      rcases hmem with h1 | h2
      · exact absurd h1 (by simp)
      · obtain ⟨htopic, he⟩ := by simpa using h2
        exact ⟨rfl, htopic, he, rfl⟩
  · rintro err rfl
    rfl

/-- Witness for C5: with the sample commit and a configured bus, the trace is
the persist action followed by the publication on `"test-counts-events"`. -/
theorem commit_publishes_after_persist_witness :
    commitReceiveTrace "test-counts" (mkTestCommit (.Create sampleModel))
      true (.ok ()) =
      [.persisted (mkTestCommit (.Create sampleModel)),
       .published (eventTopic "test-counts") (.Create sampleModel)] :=
  ((commit_publishes_after_persist "test-counts"
      (mkTestCommit (.Create sampleModel)) (.ok ())).1
    (eventTopic "test-counts") (.Create sampleModel)
    (List.mem_cons_of_mem _ (List.mem_cons_self _ _))).2.2.2

/-- A backend state whose only id has a commit log headed by a `Change`. -/
def strayStore : MemStore TestCount Op :=
  ⟨[(1, [strayChange])]⟩

/-- A backend state with two well-formed logs: the sample run under id 7 and
a single `Create` with count 5 under id 1. -/
def pairStore : MemStore TestCount Op :=
  ⟨[(7, sampleLog), (1, [mkTestCommit (.Create ⟨1, 5⟩)])]⟩

/-- Counterexample to C6 as stated: on a backend whose only commit log does
not begin with a `Create`, the `SnapshotList` task panics and sends no reply
at all, instead of replying with the empty sequence of models for the ids
that do begin with a `Create`. -/
theorem snapshotList_malformed_no_reply :
    snapshotList TestCount.applyChange strayStore 0 = none ∧
    snapshotList TestCount.applyChange strayStore 0 ≠ some [] := by
  decide

/-- Claim C6 (amended): over a backend table with pairwise-distinct ids, the
`SnapshotList` reply is the reference table replay: exactly one model per
entry, each replayed only from that entry's own commit log — so commits
under one id never affect another id's replay — provided every log replays
(begins with a `Create`, no mid-stream `Create`); if any log fails to
replay, the whole query dies and no reply is sent. -/
theorem snapshotList_eq_replayAll {M C : Type} (applyChange : M → C → M)
    (s : MemStore M C) (t : UtcTime)
    (hnodup : (s.table.map (·.1)).Nodup) :
    snapshotList applyChange s t = replayAll applyChange s.table := by
  obtain ⟨table⟩ := s
  unfold snapshotList
  rw [entitiesCollect_eq_replayAll applyChange ⟨table⟩ t,
    keys_map_changeList table hnodup]

/-- Witness for the amended C6: on the two-entry backend the reply is the
table replay, concretely the pair of independently replayed models. -/
theorem snapshotList_eq_replayAll_witness :
    snapshotList TestCount.applyChange pairStore 0 =
      replayAll TestCount.applyChange pairStore.table ∧
    snapshotList TestCount.applyChange pairStore 0 =
      some [⟨7, 42⟩, ⟨1, 5⟩] :=
  ⟨snapshotList_eq_replayAll TestCount.applyChange pairStore 0 (by decide),
   by decide⟩

/-- Claim C8: the `travel_to` fold fails (panics) on a `Create` commit at
any position of the remaining stream instead of applying it as a change, and
it can only succeed when every remaining commit carries a `Change`
payload. -/
theorem travelTo_rejects_midstream_create {M C : Type}
    (applyChange : M → C → M) :
    (∀ (m0 mC : M) (t : UtcTime) (pre post : List (Commit M C))
      (c : Commit M C), c.event = .Create mC →
      (∀ x ∈ pre, (x.event.change).isSome) →
      TimeTraveler.travelTo applyChange ⟨m0, (pre ++ c :: post).map .ok⟩ t =
        none) ∧
    (∀ (m0 m' : M) (t : UtcTime) (l : List (Commit M C)),
      TimeTraveler.travelTo applyChange ⟨m0, l.map .ok⟩ t = some (.ok m') →
      ∀ x ∈ l, (x.event.change).isSome) :=
  ⟨fun m0 mC _t pre post c hc hpre =>
    foldChanges_append_create applyChange c mC hc pre post m0 hpre,
   fun m0 m' _ l h => foldChanges_ok_changes applyChange l m0 m' h⟩

/-- Witness for C8: a `Create` commit in second position, after one valid
change, makes the replay of the sample model panic. -/
theorem travelTo_rejects_midstream_create_witness :
    TimeTraveler.travelTo TestCount.applyChange
      ⟨sampleModel,
        ([strayChange] ++ mkTestCommit (.Create sampleModel) :: []).map .ok⟩
      0 = none :=
  (travelTo_rejects_midstream_create TestCount.applyChange).1 sampleModel
    sampleModel 0 [strayChange] [] (mkTestCommit (.Create sampleModel)) rfl
    (by decide)

/-- Claim C9: when the command handler returns a commit and a reply address
is present, the spawned task forwards the commit to the Store with a
fire-and-forget send and then immediately replies with the originating
entity id; no action of the task awaits the backend's persistence. -/
theorem cmdReply_follows_forward {M C ε : Type} (modelId : M → EntityId)
    (res : Except ε (Commit M C)) (c : Commit M C) (h : res = .ok c) :
    cmdReceiveTrace modelId res true =
      [.forwardedToStore c, .repliedId (c.entityId modelId)] ∧
    EntityAction.awaitedPersistence ∉ cmdReceiveTrace modelId res true := by
  subst h
  refine ⟨rfl, ?_⟩
  simp [cmdReceiveTrace]

/-- Witness for C9: the sample create command is forwarded, then id 7 is
sent back, with no persistence wait in the trace. -/
theorem cmdReply_follows_forward_witness :
    cmdReceiveTrace TestCount.modelId
      (.ok (mkTestCommit (.Create sampleModel)) : Except String _) true =
      [.forwardedToStore (mkTestCommit (.Create sampleModel)),
       .repliedId 7] ∧
    EntityAction.awaitedPersistence ∉ cmdReceiveTrace TestCount.modelId
      (.ok (mkTestCommit (.Create sampleModel)) : Except String _) true :=
  cmdReply_follows_forward TestCount.modelId _ _ rfl

end ActorES
